import Mathlib

/-!
Shallow embedding of `src/parquetDocument.ts` (parquet-explorer).

The embedding models the query/paging core of the extension:
`ParquetDocument.formatSql`, `ParquetDocument.cleanResults`,
`ParquetDocument.runQuery`, `ParquetDocument.fetchMore`, the `IMessage`
response shape, and `ParquetDocumentProvider.onMessage` dispatch.

JavaScript strings are modelled as Lean `String`s; the JS string methods
used by the source (`toLowerCase`, `startsWith`, single-occurrence
`replace`) are embedded as executable functions on the character list,
restricted to the ASCII behaviour the source exercises.  The DuckDB
engine is modelled as a deterministic function from statement text to
either an error message or a table (`Db` below); the callback-passing
style of `db.all` is modelled by returning the list of emitted messages
together with the list of statements submitted to the engine.
-/

namespace ParquetExplorer

/-- JS `s.toLowerCase()` restricted to ASCII: lower-cases every character. -/
def jsToLower (s : String) : String := ⟨s.data.map Char.toLower⟩

/-- Test `listStartsWith s p` : does the character list `s` start with pattern `p`?
Mirrors JS `String.prototype.startsWith` at position 0. -/
def listStartsWith : List Char → List Char → Bool
  | _, [] => true
  | [], _ :: _ => false
  | c :: cs, p :: ps => c == p && listStartsWith cs ps

/-- JS `s.startsWith(pat)`. -/
def jsStartsWith (s pat : String) : Bool :=
  listStartsWith s.data pat.data

/-- Remove the first occurrence of character `c` from a list (later
occurrences are kept). -/
def removeFirstChar (c : Char) : List Char → List Char
  | [] => []
  | x :: xs => if x == c then xs else x :: removeFirstChar c xs

/-- JS `s.replace(c, '')` with a one-character *string* pattern: only the
first occurrence is removed (the source calls `sql.replace(';', '')`,
which is not a global replace). -/
def jsReplaceFirst (s : String) (c : Char) : String :=
  ⟨removeFirstChar c s.data⟩

/-- Embedding of `ParquetDocument.formatSql` (src/parquetDocument.ts:57-60):
```
if (sql.toLowerCase().startsWith('describe')) return sql;
return `SELECT * FROM (\n${sql.replace(';', '')}\n) LIMIT ${limit} OFFSET ${offset}`;
```
`limit`/`offset` are modelled as integers (the UI sends integral JS
numbers, which stringify as their decimal digits). -/
def formatSql (sql : String) (limit offset : Int) : String :=
  if jsStartsWith (jsToLower sql) "describe" then sql
  else
    "SELECT * FROM (\n" ++ jsReplaceFirst sql ';' ++ "\n) LIMIT "
      ++ toString limit ++ " OFFSET " ++ toString offset

/-- JS whitespace test for the ASCII whitespace characters relevant to SQL
text; used only to state the spec's "trimmed" precondition. -/
def isJsSpace (c : Char) : Bool :=
  c == ' ' || c == '\t' || c == '\n' || c == '\r'

/-- Modelled from the spec: JS `s.trim()` (ASCII whitespace), used to state
the spec's "leading/trailing whitespace tolerated" precondition; the source
itself never trims. -/
def jsTrim (s : String) : String :=
  ⟨((s.data.dropWhile isJsSpace).reverse.dropWhile isJsSpace).reverse⟩

/-! ## Result values and `cleanResults` -/

/-- Compute `log2Fuel fuel n` : floor of log2 of `n` (0 for `n ≤ 1`), computed with
explicit fuel so that it is structurally recursive and kernel-evaluable. -/
def log2Fuel : Nat → Nat → Nat
  | 0, _ => 0
  | fuel + 1, n => if n ≤ 1 then 0 else log2Fuel fuel (n / 2) + 1

/-- Floor of log2 (so `natLog2 n = e` with `2 ^ e ≤ n < 2 ^ (e + 1)` for `n ≥ 1`). -/
def natLog2 (n : Nat) : Nat := log2Fuel n n

/-- Round `n / 2 ^ k` to the nearest integer, ties to even
(the IEEE-754 default rounding used by JS `Number`). -/
def roundHalfEvenDivNat (n : Nat) (k : Nat) : Nat :=
  if k = 0 then n
  else
    let d := 2 ^ k
    let q := n / d
    let r := n % d
    if r < d / 2 then q
    else if d / 2 < r then q + 1
    else if q % 2 = 0 then q else q + 1

/-- JS `Number(b)` on a bigint `b`: the exact integer value of the IEEE-754
double-precision float nearest to `b` (round to nearest, ties to even).
For `|b| < 2 ^ 53` the conversion is exact; above that, `b` is rounded to a
multiple of `2 ^ (e - 52)` where `e = ⌊log2 |b|⌋`.  (Bigints beyond the
double range, `|b| ≥ 2 ^ 1024`, would give `Infinity` in JS and are outside
the modelled domain; no claim reaches them.) -/
def jsNumberOfBigint (b : Int) : Int :=
  if natLog2 b.natAbs ≤ 52 then b
  else
    (if b < 0 then -1 else 1) *
      ((roundHalfEvenDivNat b.natAbs (natLog2 b.natAbs - 52) *
        2 ^ (natLog2 b.natAbs - 52) : Nat) : Int)

/-- A JS cell value as produced by the duckdb node driver: a bigint, a
number (the claims only involve integer-valued numbers, so the double is
carried as its exact integer value), a string, a boolean, or null. -/
inductive JsValue where
  | vbigint : Int → JsValue
  | vnum : Int → JsValue
  | vstr : String → JsValue
  | vbool : Bool → JsValue
  | vnull : JsValue
deriving DecidableEq, Repr

/-- Is this cell value a bigint? (`typeof value == "bigint"`). -/
def JsValue.isBigint : JsValue → Bool
  | .vbigint _ => true
  | _ => false

/-- A result row: `Object.entries` order of column name/value pairs. -/
abbrev Row : Type := List (String × JsValue)

/-- Embedding of `duckdb.TableData`: the ordered rows of a result set. -/
abbrev TableData : Type := List Row

/-- The per-cell effect of `cleanResults`:
`if (typeof value == "bigint") row[key] = Number(value);`. -/
def cleanValue : JsValue → JsValue
  | .vbigint n => .vnum (jsNumberOfBigint n)
  | v => v

/-- The per-row effect of `cleanResults`: every entry's value is cleaned,
keys and order untouched. -/
def cleanRow (row : Row) : Row :=
  row.map fun kv => (kv.1, cleanValue kv.2)

/-- Embedding of `ParquetDocument.cleanResults` (src/parquetDocument.ts:62-72): walks
every row and every entry, converting bigint cells with `Number`.  The
source mutates the rows in place and returns the same array; the model
returns the resulting value. -/
def cleanResults (results : TableData) : TableData :=
  results.map cleanRow

/-- Cell at row `i`, column position `j` of a result set. -/
def cellAt (t : TableData) (i j : Nat) : Option (String × JsValue) :=
  (t[i]?).bind fun row => row[j]?

/-- Does any cell of the result set hold a bigint? -/
def containsBigint (t : TableData) : Bool :=
  t.any fun row => row.any fun kv => kv.2.isBigint

/-! ## The engine, messages, `runQuery`, `fetchMore`, and dispatch -/

/-- The embedded DuckDB engine, as seen through `db.all(stmt, cb)`: a
deterministic map from statement text to either an error message
(`err.message`) or a table of rows. -/
def Db : Type := String → Except String TableData

/-- Discriminant values of the `type` field of `IMessage`. -/
inductive MsgType where
  | query
  | more
deriving DecidableEq, Repr

/-- Embedding of `IMessage` (src/parquetDocument.ts:7-12): discriminated response payload
with optional `message` and `results` fields. -/
structure IMessage where
  type : MsgType
  success : Bool
  message : Option String
  results : Option TableData
deriving DecidableEq

/-- The observable behaviour of one document operation: the statements
submitted to the engine, in order, and the messages delivered to the
callback, in order. -/
structure RunLog where
  stmts : List String
  msgs : List IMessage
deriving DecidableEq

/-- Embedding of `ParquetDocument.runQuery` (src/parquetDocument.ts:74-91): first runs
`EXPLAIN\n<sql>` (raw `sql`, no rewriting); on error, emits one failed
`query` message with the engine's error text and stops; on success, runs
`formatSql sql limit 0` and emits either a failed `query` message or a
successful one carrying `cleanResults` of the rows. -/
def runQuery (db : Db) (sql : String) (limit : Int) : RunLog :=
  match db ("EXPLAIN\n" ++ sql) with
  | .error e => ⟨["EXPLAIN\n" ++ sql], [⟨.query, false, some e, none⟩]⟩
  | .ok _ =>
    match db (formatSql sql limit 0) with
    | .error e =>
        ⟨["EXPLAIN\n" ++ sql, formatSql sql limit 0],
         [⟨.query, false, some e, none⟩]⟩
    | .ok res =>
        ⟨["EXPLAIN\n" ++ sql, formatSql sql limit 0],
         [⟨.query, true, none, some (cleanResults res)⟩]⟩

/-- Embedding of `ParquetDocument.fetchMore` (src/parquetDocument.ts:93-104): runs
`formatSql sql limit offset` directly (no validation pass) and emits a
`more` message; note the success branch returns `res` as-is, with no
`cleanResults` call. -/
def fetchMore (db : Db) (sql : String) (limit offset : Int) : RunLog :=
  match db (formatSql sql limit offset) with
  | .error e => ⟨[formatSql sql limit offset], [⟨.more, false, some e, none⟩]⟩
  | .ok res => ⟨[formatSql sql limit offset], [⟨.more, true, none, some res⟩]⟩

/-- An incoming webview message as read by `onMessage` (typed `any` in the source):
a `type` tag and the fields the two recognized kinds use. -/
structure Incoming where
  type : String
  sql : String
  limit : Int
  offset : Int

/-- Which document operation the provider's switch invokes. -/
inductive DispatchAction where
  | ranQuery : String → Int → DispatchAction
  | ranMore : String → Int → Int → DispatchAction
  | noAction
deriving DecidableEq, Repr

/-- The switch of `ParquetDocumentProvider.onMessage`
(src/parquetDocument.ts:235-245): `query` invokes `runQuery`, `more`
invokes `fetchMore`, anything else falls through the `switch` and does
nothing. -/
def dispatchOf (m : Incoming) : DispatchAction :=
  match m.type with
  | "query" => .ranQuery m.sql m.limit
  | "more" => .ranMore m.sql m.limit m.offset
  | _ => .noAction

/-- The messages posted back to the webview for one incoming message:
each recognized kind forwards its operation's callback messages through
`postMessage`; unrecognized kinds post nothing. -/
def postedOf (db : Db) (m : Incoming) : List IMessage :=
  match dispatchOf m with
  | .ranQuery sql limit => (runQuery db sql limit).msgs
  | .ranMore sql limit offset => (fetchMore db sql limit offset).msgs
  | .noAction => []

/-! ## Helper lemmas -/

/-- Removing the first occurrence of a character shortens a list by at
most one. -/
theorem removeFirstChar_length_ge (c : Char) (l : List Char) :
    l.length ≤ (removeFirstChar c l).length + 1 := by
  induction l with
  | nil => simp [removeFirstChar]
  | cons x xs ih =>
    by_cases hx : x == c
    · simp [removeFirstChar, hx]
    · simp only [removeFirstChar, hx, Bool.false_eq_true, if_false,
        List.length_cons]
      omega

/-- Removing the first occurrence of `c` decrements the number of
occurrences of `c` by one (truncated at 0 when `c` is absent). -/
theorem removeFirstChar_count (c : Char) (l : List Char) :
    (removeFirstChar c l).count c = l.count c - 1 := by
  induction l with
  | nil => simp [removeFirstChar]
  | cons x xs ih =>
    by_cases hx : x == c
    · have hxc : x = c := eq_of_beq hx
      simp [removeFirstChar, hx, hxc, List.count_cons]
    · have hxc : ¬ x = c := fun h => hx (beq_iff_eq.mpr h)
      simp only [removeFirstChar, hx, Bool.false_eq_true, if_false,
        List.count_cons, ih]
      simp [hxc]

/-- Bound for the fuelled log2: if `n < 2 ^ (k + 1)` then `log2Fuel fuel n ≤ k`. -/
theorem log2Fuel_le (fuel : Nat) :
    ∀ (n k : Nat), n < 2 ^ (k + 1) → log2Fuel fuel n ≤ k := by
  induction fuel with
  | zero => intro n k _; simp [log2Fuel]
  | succ fuel ih =>
    intro n k h
    by_cases h1 : n ≤ 1
    · simp [log2Fuel, h1]
    · cases k with
      | zero => omega
      | succ k =>
        have hd : n / 2 < 2 ^ (k + 1) := by
          rw [Nat.div_lt_iff_lt_mul (by norm_num : (0 : Nat) < 2)]
          calc n < 2 ^ (k + 1 + 1) := h
            _ = 2 ^ (k + 1) * 2 := by ring
        simp only [log2Fuel, if_neg h1]
        exact Nat.succ_le_succ (ih (n / 2) k hd)

/-- JS `Number` is exact on bigints of magnitude at most `2 ^ 53`. -/
theorem jsNumberOfBigint_exact (n : Int) (h : n.natAbs ≤ 2 ^ 53) :
    jsNumberOfBigint n = n := by
  rcases lt_or_eq_of_le h with hlt | heq
  · have hlog : natLog2 n.natAbs ≤ 52 := log2Fuel_le n.natAbs n.natAbs 52 hlt
    simp [jsNumberOfBigint, hlog]
  · have h2 : n = (9007199254740992 : Int) ∨ n = (-9007199254740992 : Int) := by
      rcases Int.natAbs_eq n with h1 | h1
      · left
        rw [h1, heq]
        norm_num
      · right
        rw [h1, heq]
        norm_num
    rcases h2 with rfl | rfl
    · decide
    · decide

/-- Values that are not bigints pass through `cleanValue` unchanged. -/
theorem cleanValue_of_not_bigint (v : JsValue) (h : v.isBigint = false) :
    cleanValue v = v := by
  cases v <;> simp_all [JsValue.isBigint, cleanValue]

/-- A row with no bigint cell is unchanged by `cleanRow`. -/
theorem cleanRow_of_no_bigint (row : Row)
    (h : (row.any fun kv => kv.2.isBigint) = false) :
    cleanRow row = row := by
  induction row with
  | nil => rfl
  | cons kv rest ih =>
    simp only [List.any_cons, Bool.or_eq_false_iff] at h
    simp [cleanRow, cleanValue_of_not_bigint kv.2 h.1]
    have := ih h.2
    simpa [cleanRow] using this

/-- A result set with no bigint cell is unchanged by `cleanResults`. -/
theorem cleanResults_of_no_bigint (t : TableData)
    (h : containsBigint t = false) :
    cleanResults t = t := by
  induction t with
  | nil => rfl
  | cons row rest ih =>
    simp only [containsBigint, List.any_cons, Bool.or_eq_false_iff] at h
    simp [cleanResults, cleanRow_of_no_bigint row h.1]
    have := ih (by simpa [containsBigint] using h.2)
    simpa [cleanResults] using this

/-! ## Claims about `formatSql` (C1, C3, C10) -/

/-- C1, counterexample: on the input `select 1;;` (two semicolons, not a
`describe` statement) the rewritten statement still contains a semicolon,
so the stripped text is not semicolon-free as the claim states: JS
`replace(';', '')` removes only the first occurrence. -/
theorem c1_counterexample :
    jsStartsWith (jsToLower "select 1;;") "describe" = false ∧
    formatSql "select 1;;" 10 0
      = "SELECT * FROM (\nselect 1;\n) LIMIT 10 OFFSET 0" ∧
    (formatSql "select 1;;" 10 0).data.count ';' = 1 :=
  ⟨by decide, by decide, by decide⟩

/-- C1, amended: for every non-`describe` statement the rewritten form is
syntactically `SELECT * FROM (<sql'>) LIMIT <limit> OFFSET <offset>` where
`<sql'>` is the input with only its FIRST semicolon occurrence removed
(the occurrence count drops by exactly one, truncated at zero); later
semicolons, including those inside string literals, survive. -/
theorem c1_theorem (sql : String) (limit offset : Int)
    (h : jsStartsWith (jsToLower sql) "describe" = false) :
    formatSql sql limit offset
      = "SELECT * FROM (\n" ++ jsReplaceFirst sql ';' ++ "\n) LIMIT "
        ++ toString limit ++ " OFFSET " ++ toString offset ∧
    (jsReplaceFirst sql ';').data.count ';' = sql.data.count ';' - 1 :=
  ⟨by simp [formatSql, h], removeFirstChar_count ';' sql.data⟩

/-- C1, witness: the amended statement evaluated on `a;b;` with limit 2,
offset 5. -/
theorem c1_witness :
    formatSql "a;b;" 2 5
      = "SELECT * FROM (\n" ++ jsReplaceFirst "a;b;" ';' ++ "\n) LIMIT "
        ++ toString (2 : Int) ++ " OFFSET " ++ toString (5 : Int) ∧
    (jsReplaceFirst "a;b;" ';').data.count ';'
      = ("a;b;" : String).data.count ';' - 1 :=
  c1_theorem "a;b;" 2 5 (by decide)

/-- C3, counterexample: `" describe t"` (leading space) begins with
`describe` after trimming and lower-casing, so the claim requires the
identity rewrite, but the source never trims: the statement is wrapped
with LIMIT/OFFSET instead of being returned verbatim. -/
theorem c3_counterexample :
    jsStartsWith (jsToLower (jsTrim " describe t")) "describe" = true ∧
    formatSql " describe t" 10 0 ≠ " describe t" :=
  ⟨by decide, by decide⟩

/-- C3, amended: `formatSql` is the identity exactly when the raw,
untrimmed, lower-cased statement begins with `describe`; leading
whitespace defeats the check and the statement is wrapped. -/
theorem c3_theorem (sql : String) (limit offset : Int) :
    formatSql sql limit offset = sql ↔
      jsStartsWith (jsToLower sql) "describe" = true := by
  constructor
  · intro h
    by_contra hc
    have hb : ¬ jsStartsWith (jsToLower sql) "describe" = true := hc
    rw [formatSql, if_neg hb] at h
    have hlen := congrArg String.length h
    simp only [String.length_append] at hlen
    have e1 : ("SELECT * FROM (\n" : String).length = 16 := by decide
    have e2 : ("\n) LIMIT " : String).length = 9 := by decide
    have e3 : (" OFFSET " : String).length = 8 := by decide
    have hr : sql.length ≤ (jsReplaceFirst sql ';').length + 1 :=
      removeFirstChar_length_ge ';' sql.data
    omega
  · intro h
    simp [formatSql, h]

/-- C10: the `describe` check is a pure prefix match with no word
boundary: any statement whose lower-cased text starts with the eight
characters `describe` is returned verbatim for every limit and offset. -/
theorem c10_theorem (sql : String) (limit offset : Int)
    (h : jsStartsWith (jsToLower sql) "describe" = true) :
    formatSql sql limit offset = sql := by
  simp [formatSql, h]

/-- C10, witness: `described x` — `describe` as a prefix of a longer word
— is returned verbatim. -/
theorem c10_witness :
    jsStartsWith (jsToLower "described x") "describe" = true ∧
    formatSql "described x" 7 3 = "described x" :=
  ⟨by decide, c10_theorem "described x" 7 3 (by decide)⟩

/-! ## Concrete engines used by counterexamples and witnesses -/

/-- An engine that fails every statement with the error text `boom`. -/
def dbErr : Db := fun _ => .error "boom"

/-- An engine that answers every statement with a single row holding one
bigint cell. -/
def dbBig : Db := fun _ => .ok [[("a", JsValue.vbigint 1)]]

/-- An engine that answers every statement with a single row holding one
plain-number cell (no bigints anywhere). -/
def dbPlain : Db := fun _ => .ok [[("a", JsValue.vnum 3)]]

/-! ## Claims about `runQuery`, `fetchMore` and the message protocol -/

/-- C2, counterexample: a successful `more` response is NOT cleaned — the
source's `fetchMore` success branch returns `res` without `cleanResults`,
so a bigint cell reaches the callback unconverted. -/
theorem c2_counterexample :
    (fetchMore dbBig "select * from data" 10 0).msgs
      = [⟨MsgType.more, true, none, some [[("a", JsValue.vbigint 1)]]⟩] ∧
    containsBigint [[("a", JsValue.vbigint 1)]] = true :=
  ⟨by decide, by decide⟩

/-- C2, amended: only `runQuery`'s successful `query` responses carry the
cleaned result set; `fetchMore`'s successful `more` responses deliver the
engine's rows unmodified, with no bigint conversion. -/
theorem c2_theorem :
    (∀ (db : Db) (sql : String) (limit offset : Int) (res : TableData),
        db (formatSql sql limit offset) = .ok res →
        (fetchMore db sql limit offset).msgs
          = [⟨MsgType.more, true, none, some res⟩]) ∧
    (∀ (db : Db) (sql : String) (limit : Int) (r0 r : TableData),
        db ("EXPLAIN\n" ++ sql) = .ok r0 →
        db (formatSql sql limit 0) = .ok r →
        (runQuery db sql limit).msgs
          = [⟨MsgType.query, true, none, some (cleanResults r)⟩]) := by
  constructor
  · intro db sql limit offset res h
    simp [fetchMore, h]
  · intro db sql limit r0 r hv hb
    simp [runQuery, hv, hb]

/-- C2, witness: both branches of the amended statement evaluated on the
bigint-producing engine. -/
theorem c2_witness :
    (fetchMore dbBig "q" 10 0).msgs
      = [⟨MsgType.more, true, none, some [[("a", JsValue.vbigint 1)]]⟩] ∧
    (runQuery dbBig "q" 10).msgs
      = [⟨MsgType.query, true, none,
          some (cleanResults [[("a", JsValue.vbigint 1)]])⟩] :=
  ⟨c2_theorem.1 dbBig "q" 10 0 _ rfl,
   c2_theorem.2 dbBig "q" 10 _ _ rfl rfl⟩

/-- C4: when the validation (`EXPLAIN`) pass fails, `runQuery` submits no
further statement to the engine (the bounded statement is never executed)
and the callback receives exactly one failed `query` message carrying the
engine's error text. -/
theorem c4_theorem (db : Db) (sql : String) (limit : Int) (e : String)
    (h : db ("EXPLAIN\n" ++ sql) = .error e) :
    runQuery db sql limit
      = ⟨["EXPLAIN\n" ++ sql], [⟨MsgType.query, false, some e, none⟩]⟩ := by
  simp [runQuery, h]

/-- C4, witness: the failing engine yields the single validation statement
and the single failure message. -/
theorem c4_witness :
    runQuery dbErr "SELECT * FROM data" 10
      = ⟨["EXPLAIN\n" ++ "SELECT * FROM data"],
         [⟨MsgType.query, false, some "boom", none⟩]⟩ :=
  c4_theorem dbErr "SELECT * FROM data" 10 "boom" rfl

/-- C5, counterexample: on an engine returning a bigint cell, `runQuery`
succeeds with the cleaned row `vnum 1` while `fetchMore` at offset 0
returns the raw row `vbigint 1`; the result sets differ, so they are not
identical as the claim states. -/
theorem c5_counterexample :
    (runQuery dbBig "q" 10).msgs
      = [⟨MsgType.query, true, none, some [[("a", JsValue.vnum 1)]]⟩] ∧
    (fetchMore dbBig "q" 10 0).msgs
      = [⟨MsgType.more, true, none, some [[("a", JsValue.vbigint 1)]]⟩] ∧
    ([[("a", JsValue.vnum 1)]] : TableData) ≠ [[("a", JsValue.vbigint 1)]] :=
  ⟨by decide, by decide, by decide⟩

/-- C5, amended: both calls execute the same rewritten statement
`formatSql sql limit 0`, so when that statement succeeds, `runQuery`
returns `cleanResults` of the very rows `fetchMore` returns; the two
result sets are identical whenever the page contains no bigint cell. -/
theorem c5_theorem (db : Db) (sql : String) (limit : Int)
    (r0 r : TableData)
    (hv : db ("EXPLAIN\n" ++ sql) = .ok r0)
    (hb : db (formatSql sql limit 0) = .ok r) :
    (runQuery db sql limit).msgs
      = [⟨MsgType.query, true, none, some (cleanResults r)⟩] ∧
    (fetchMore db sql limit 0).msgs
      = [⟨MsgType.more, true, none, some r⟩] ∧
    (containsBigint r = false → cleanResults r = r) :=
  ⟨by simp [runQuery, hv, hb], by simp [fetchMore, hb],
   cleanResults_of_no_bigint r⟩

/-- C5, witness: the amended statement evaluated on a bigint-free engine,
with the no-bigint condition discharged, showing identical result sets. -/
theorem c5_witness :
    (runQuery dbPlain "q" 4).msgs
      = [⟨MsgType.query, true, none,
          some (cleanResults [[("a", JsValue.vnum 3)]])⟩] ∧
    (fetchMore dbPlain "q" 4 0).msgs
      = [⟨MsgType.more, true, none, some [[("a", JsValue.vnum 3)]]⟩] ∧
    cleanResults [[("a", JsValue.vnum 3)]] = [[("a", JsValue.vnum 3)]] :=
  ⟨(c5_theorem dbPlain "q" 4 _ _ rfl rfl).1,
   (c5_theorem dbPlain "q" 4 _ _ rfl rfl).2.1,
   (c5_theorem dbPlain "q" 4 _ _ rfl rfl).2.2 (by decide)⟩

/-- C6, counterexample: `cleanResults` converts the bigint cell
`9007199254740993` (`2 ^ 53 + 1`) to the number `9007199254740992`
(`2 ^ 53`), which is NOT equal in value to the original: JS `Number`
rounds bigints above the safe-integer range. -/
theorem c6_counterexample :
    cleanResults [[("a", JsValue.vbigint 9007199254740993)]]
      = [[("a", JsValue.vnum 9007199254740992)]] ∧
    (9007199254740992 : Int) ≠ 9007199254740993 :=
  ⟨by decide, by decide⟩

/-- C6, amended: `cleanResults` rewrites every cell position by
`cleanValue`, which replaces each bigint cell by the nearest IEEE-754
double (exactly equal in value whenever the magnitude is at most `2 ^ 53`)
and leaves every non-bigint cell unchanged; keys, row order and column
order are preserved. -/
theorem c6_theorem :
    (∀ (t : TableData) (i j : Nat) (k : String) (v : JsValue),
        cellAt t i j = some (k, v) →
        cellAt (cleanResults t) i j = some (k, cleanValue v)) ∧
    (∀ n : Int, n.natAbs ≤ 2 ^ 53 →
        cleanValue (JsValue.vbigint n) = JsValue.vnum n) ∧
    (∀ v : JsValue, v.isBigint = false → cleanValue v = v) := by
  refine ⟨?_, ?_, cleanValue_of_not_bigint⟩
  · intro t i j k v h
    rcases Option.bind_eq_some.mp h with ⟨row, hrow, hcell⟩
    unfold cellAt cleanResults
    rw [List.getElem?_map, hrow]
    simp only [Option.map_some', Option.some_bind]
    unfold cleanRow
    rw [List.getElem?_map, hcell]
    rfl
  · intro n hn
    simp [cleanValue, jsNumberOfBigint_exact n hn]

/-- C6, witness: the three parts of the amended statement evaluated at a
small bigint cell, the bound `2 ^ 53`, and a string cell. -/
theorem c6_witness :
    cellAt (cleanResults [[("a", JsValue.vbigint 5)]]) 0 0
      = some ("a", cleanValue (JsValue.vbigint 5)) ∧
    cleanValue (JsValue.vbigint 5) = JsValue.vnum 5 ∧
    cleanValue (JsValue.vstr "x") = JsValue.vstr "x" :=
  ⟨c6_theorem.1 [[("a", JsValue.vbigint 5)]] 0 0 "a" (JsValue.vbigint 5)
      (by decide),
   c6_theorem.2.1 5 (by decide),
   c6_theorem.2.2 (JsValue.vstr "x") (by decide)⟩

/-- C7: every message `runQuery` or `fetchMore` delivers populates exactly
one of `message`/`results` according to `success`: successes carry
`results` and no `message`, failures carry `message` and no `results`. -/
theorem c7_theorem (db : Db) (sql : String) (limit offset : Int)
    (m : IMessage)
    (h : m ∈ (runQuery db sql limit).msgs ∨
      m ∈ (fetchMore db sql limit offset).msgs) :
    (m.success = true → m.message = none ∧ (m.results).isSome = true) ∧
    (m.success = false → m.results = none ∧ (m.message).isSome = true) := by
  rcases h with h | h
  · unfold runQuery at h
    cases hv : db ("EXPLAIN\n" ++ sql) with
    | error e =>
      rw [hv] at h
      simp only [List.mem_singleton] at h
      subst h
      simp
    | ok r =>
      rw [hv] at h
      cases hb : db (formatSql sql limit 0) with
      | error e =>
        rw [hb] at h
        simp only [List.mem_singleton] at h
        subst h
        simp
      | ok res =>
        rw [hb] at h
        simp only [List.mem_singleton] at h
        subst h
        simp
  · unfold fetchMore at h
    cases hb : db (formatSql sql limit offset) with
    | error e =>
      rw [hb] at h
      simp only [List.mem_singleton] at h
      subst h
      simp
    | ok res =>
      rw [hb] at h
      simp only [List.mem_singleton] at h
      subst h
      simp

/-- C7, witness: the failure message produced by the failing engine has no
`results` and a populated `message`. -/
theorem c7_witness :
    (⟨MsgType.query, false, some "boom", none⟩ : IMessage).results = none ∧
    ((⟨MsgType.query, false, some "boom", none⟩ : IMessage).message).isSome
      = true :=
  (c7_theorem dbErr "q" 1 0 ⟨MsgType.query, false, some "boom", none⟩
      (Or.inl (by decide))).2 rfl

/-- C8: for an incoming message whose kind is neither `query` nor `more`,
the provider's switch invokes neither `runQuery` nor `fetchMore` and posts
nothing back to the webview. -/
theorem c8_theorem (db : Db) (m : Incoming)
    (hq : m.type ≠ "query") (hm : m.type ≠ "more") :
    dispatchOf m = DispatchAction.noAction ∧ postedOf db m = [] := by
  have hd : dispatchOf m = DispatchAction.noAction := by
    unfold dispatchOf
    split
    · next h => exact absurd h hq
    · next h => exact absurd h hm
    · rfl
  refine ⟨hd, ?_⟩
  unfold postedOf
  rw [hd]

/-- C8, witness: a message of unrecognized kind `ping` triggers no action
and no posted response. -/
theorem c8_witness :
    dispatchOf ⟨"ping", "s", 1, 0⟩ = DispatchAction.noAction ∧
    postedOf dbErr ⟨"ping", "s", 1, 0⟩ = [] :=
  c8_theorem dbErr ⟨"ping", "s", 1, 0⟩ (by decide) (by decide)

/-- C9: the first statement `runQuery` submits to the engine is exactly
`EXPLAIN`, a newline, and the raw input SQL — no semicolon stripping and
no LIMIT/OFFSET wrapping is applied to the validated text. -/
theorem c9_theorem (db : Db) (sql : String) (limit : Int) :
    (runQuery db sql limit).stmts.head? = some ("EXPLAIN\n" ++ sql) := by
  unfold runQuery
  cases db ("EXPLAIN\n" ++ sql) with
  | error e => rfl
  | ok r => cases db (formatSql sql limit 0) <;> rfl

end ParquetExplorer
